import Mathlib

/-!
Verification development for the lise chunked vector retrieval engine.

The definitions below are a shallow embedding of the Python source:

* `recursive_character_splitter` and its helpers embed
  `src/lise/rag.py`, lines 29-106.  Python strings are modelled as
  `List Char`; `str.split(sep)` (for a non-empty separator) is
  `pySplit`; the recursion of the source is modelled with an explicit
  fuel parameter, so that `none` means the source recursion did not
  finish within the given fuel (and `∀ fuel, ... = none` means the
  source recursion never finishes), while `some chunks` is the value
  the source returns.
* `retrieve`, `retrieve_db_phase` and the `Db` structure embed
  `RAGIndex.retrieve` and `RAGIndex._load_index`
  (`src/lise/rag.py`, lines 185-242).  The embedding model and the
  faiss index are external collaborators: the ordinal list produced by
  the vector search is a parameter (`faiss_indices`).  Exceptions are
  modelled with `Except`; the `try/except` of the source that returns
  `[]` is the wrapper in `retrieve`.
* `build_and_save_index` embeds `RAGIndex.build_and_save_index`
  (`src/lise/rag.py`, lines 124-183), with the sqlite `with conn`
  transaction semantics made explicit: a normal exit of the block
  commits, an exception rolls back and is swallowed by the outer
  `except`.
* `InMemoryRAG_init` and `InMemoryRAG_retrieve` embed the in-memory
  backend of `src/api.py`, lines 37-62, with Python list indexing
  semantics (including negative indices) in `py_list_get`.
* `get_answer_chunks` embeds the payload-shape branching of the
  `/api/answer` endpoint (`src/api.py`, lines 104-126), including the
  fact that the `HTTPException(400)` raised there is caught by the
  generic `except Exception` handler (line 145) and surfaces as a 500.
-/

namespace Lise

/-- Python strings are modelled as lists of characters. -/
abbrev Chars := List Char

/-- Default separator list of `recursive_character_splitter`
(src/lise/rag.py line 42): paragraph break, line break,
sentence-terminal space, plain space, empty string. -/
def defaultSeps : List Chars := [['\n', '\n'], ['\n'], ['.', ' '], [' '], []]

/-- Python `sep in text` for a non-empty `sep`: substring containment. -/
def containsSeq (sep : Chars) : Chars → Bool
  | [] => sep.isEmpty
  | c :: cs => sep.isPrefixOf (c :: cs) || containsSeq sep cs

/-- Separator selection loop (src/lise/rag.py lines 48-55): the first
separator that is the empty string, or occurs in the text, is chosen;
if the loop finishes without a match the variable keeps its initial
value, the empty string. -/
def pickSep : List Chars → Chars → Chars
  | [], _ => []
  | s :: rest, t => if s = [] then [] else if containsSeq s t then s else pickSep rest t

/-- Location of the first occurrence of `sep` in the text: the part
before it and the part after it. Returns `none` when `sep` does not
occur. Helper for `pySplit`. -/
def findOcc (sep : Chars) : Chars → Option (Chars × Chars)
  | [] => none
  | c :: cs =>
    if sep.isPrefixOf (c :: cs) then some ([], List.drop sep.length (c :: cs))
    else
      match findOcc sep cs with
      | some pp => some (c :: pp.1, pp.2)
      | none => none

/-- Fuel-indexed worker for `pySplit`; the fuel only serves to make the
recursion structural, `pySplit` always supplies enough. -/
def pySplitAux (sep : Chars) : Nat → Chars → List Chars
  | 0, t => [t]
  | Nat.succ f, t =>
    match findOcc sep t with
    | none => [t]
    | some pp => pp.1 :: pySplitAux sep f pp.2

/-- Python `text.split(sep)` for a non-empty separator `sep`: split at
every non-overlapping occurrence, keeping empty parts
(src/lise/rag.py line 59). Each occurrence consumes at least one
character, so `t.length` is always enough fuel. -/
def pySplit (sep t : Chars) : List Chars := pySplitAux sep t.length t

/-- Python `s[-n:]` for `n > 0`: the last `n` characters of `s` (all of
`s` when it is shorter than `n`). Used at src/lise/rag.py line 102. -/
def lastN (n : Nat) (l : Chars) : Chars := l.drop (l.length - n)

/-- Overlap application phase of the splitter (src/lise/rag.py lines
98-106): when the overlap is positive and there are at least two
chunks, every chunk after the first is prefixed with the last
`chunk_overlap` characters of the previous pre-overlap chunk; otherwise
the chunk list is returned unchanged. -/
def applyOverlap (chunk_overlap : Nat) (chunks : List Chars) : List Chars :=
  if 0 < chunk_overlap ∧ 1 < chunks.length then
    match chunks with
    | [] => []
    | c :: rest =>
      c :: List.zipWith (fun prev cur => lastN chunk_overlap prev ++ cur) (c :: rest) rest
  else chunks

/-- Greedy packing loop over the parts of a split
(src/lise/rag.py lines 63-96).  `recur` is the recursive call into the
splitter with the remaining separator list (already fixed by the
caller).  The state is the accumulated chunk list and the running
buffer `current`.  Note that in the oversized-part branch the source
does NOT reset `current_chunk`, so this function passes `current`
through unchanged there, mirroring the source. -/
def goParts (recur : Chars → Option (List Chars)) (chunk_size : Nat) (sep : Chars) :
    List Chars → List Chars → Chars → Option (List Chars)
  | [], chunks, current => some (if current = [] then chunks else chunks ++ [current])
  | part :: rest, chunks, current =>
    if part = [] then goParts recur chunk_size sep rest chunks current
    else
      let pta := if current = [] then part else sep ++ part
      if current.length + pta.length ≤ chunk_size then
        goParts recur chunk_size sep rest chunks (current ++ pta)
      else
        let chunks1 := if current = [] then chunks else chunks ++ [current]
        if chunk_size < pta.length then
          match recur pta with
          | none => none
          | some sub => goParts recur chunk_size sep rest (chunks1 ++ sub) current
        else
          goParts recur chunk_size sep rest chunks1 pta

/-- Fuel-indexed embedding of `recursive_character_splitter`
(src/lise/rag.py lines 29-106) at a given separator list.  `none`
means the recursion of the source did not finish within `fuel` nested
calls; `some chunks` is the returned chunk list.  The empty-separator
fallback of the source sets `splits = [text]` (line 61), and the
recursive call uses `separators[1:]` (line 88). -/
def rcsFuel : Nat → Nat → Nat → Chars → List Chars → Option (List Chars)
  | 0, _, _, _, _ => none
  | Nat.succ fuel, chunk_size, chunk_overlap, text, seps =>
    if text = [] then some []
    else
      let sep := pickSep seps text
      let splits := if sep = [] then [text] else pySplit sep text
      match goParts (fun t => rcsFuel fuel chunk_size chunk_overlap t seps.tail)
          chunk_size sep splits [] [] with
      | none => none
      | some chunks => some (applyOverlap chunk_overlap chunks)

/-- Entry point of the splitter with the default separator list
(src/lise/rag.py lines 40-42), fuel-indexed as in `rcsFuel`. -/
def recursive_character_splitter (fuel : Nat) (text : Chars)
    (chunk_size chunk_overlap : Nat) : Option (List Chars) :=
  rcsFuel fuel chunk_size chunk_overlap text defaultSeps

/-- Configured chunk size (src/lise/config.py). -/
def CHUNK_SIZE : Nat := 500

/-- Configured chunk overlap (src/lise/config.py). -/
def CHUNK_OVERLAP : Nat := 100

/-! ### Database model and `RAGIndex.retrieve` (src/lise/rag.py lines 185-242) -/

/-- Value stored in a sqlite column, as seen through `sqlite3.Row`. -/
inductive SqlVal where
  | int (i : Int) : SqlVal
  | text (t : Chars) : SqlVal
deriving DecidableEq

/-- Row of the `chunks` table (src/database_setup.py): sqlite rowid,
datasource id foreign key, chunk text. -/
structure ChunkRow where
  rowid : Int
  datasource_id : Int
  chunk_text : Chars
deriving DecidableEq

/-- Row of the `datasources` table: id and owning property id. -/
structure Datasource where
  id : Int
  property_id : Int
deriving DecidableEq

/-- The database state relevant to the retrieval engine. -/
structure Db where
  datasources : List Datasource
  chunks : List ChunkRow
deriving DecidableEq

/-- The column name string used in the SELECT of src/lise/rag.py
line 226 and in the dict comprehension of line 230. -/
def chunk_text_key : String := "chunk_text"

/-- The column name the dict comprehension of src/lise/rag.py line 230
tries to read, although the SELECT of line 226 does not request it. -/
def rowid_key : String := "rowid"

/-- Message of the `IndexError` raised by `sqlite3.Row` when a row is
indexed with a column name that was not selected. -/
def indexErrorMsg : String := "No item with that key"

/-- Ids of the datasources belonging to a property: the subquery
`SELECT id FROM datasources WHERE property_id = ?` of
src/lise/rag.py lines 211-213. -/
def property_datasource_ids (db : Db) (property_id : Int) : List Int :=
  (db.datasources.filter (fun d => d.property_id == property_id)).map (fun d => d.id)

/-- Chunk rows belonging to a property, via its datasources. -/
def property_chunk_rows (db : Db) (property_id : Int) : List ChunkRow :=
  db.chunks.filter (fun r => (property_datasource_ids db property_id).contains r.datasource_id)

/-- The `SELECT MIN(rowid) ...` of src/lise/rag.py lines 210-214:
`none` models the NULL that SQL MIN returns on an empty set. -/
def min_rowid (db : Db) (property_id : Int) : Option Int :=
  ((property_chunk_rows db property_id).map (fun r => r.rowid)).min?

/-- The mapping from faiss ordinals to database rowids
(src/lise/rag.py line 223): `base_rowid + idx` for every returned
ordinal, including the `-1` padding ordinals faiss emits when the
index holds fewer vectors than `top_k`. -/
def db_chunk_ids (base : Int) (faiss_indices : List Int) : List Int :=
  faiss_indices.map (fun idx => base + idx)

/-- Rows fetched by `SELECT chunk_text FROM chunks WHERE rowid IN ...`
(src/lise/rag.py lines 225-229).  Note: the WHERE clause filters only
by rowid, with no tenant scoping. -/
def fetched_rows (db : Db) (ids : List Int) : List ChunkRow :=
  db.chunks.filter (fun r => ids.contains r.rowid)

/-- Projection performed by the SELECT of src/lise/rag.py line 226:
only the `chunk_text` column is in the result row. -/
def select_chunk_text_row (r : ChunkRow) : List (String × SqlVal) :=
  [(chunk_text_key, SqlVal.text r.chunk_text)]

/-- `sqlite3.Row` indexing by column name: raises `IndexError` when the
column was not part of the SELECT. -/
def row_lookup (row : List (String × SqlVal)) (key : String) : Except String SqlVal :=
  match row.find? (fun kv => kv.1 == key) with
  | some kv => Except.ok kv.2
  | none => Except.error indexErrorMsg

/-- The dict comprehension of src/lise/rag.py line 230:
`{row[rowid]: row[chunk_text] for row in cursor.fetchall()}`.
Reading a missing column propagates the `IndexError`. -/
def build_results_dict : List (List (String × SqlVal)) → Except String (List (SqlVal × SqlVal))
  | [] => Except.ok []
  | row :: rest =>
    match row_lookup row rowid_key with
    | Except.error e => Except.error e
    | Except.ok k =>
      match row_lookup row chunk_text_key with
      | Except.error e => Except.error e
      | Except.ok v =>
        match build_results_dict rest with
        | Except.error e => Except.error e
        | Except.ok tl => Except.ok ((k, v) :: tl)

/-- The final comprehension of src/lise/rag.py line 233: texts of ids
found in the dict, preserving the faiss ranking order. -/
def ordered_chunks (dict : List (SqlVal × SqlVal)) (ids : List Int) : List SqlVal :=
  ids.filterMap (fun i => (dict.find? (fun kv => kv.1 == SqlVal.int i)).map (fun kv => kv.2))

/-- Database phase of `RAGIndex.retrieve` (the body of the `try` block,
src/lise/rag.py lines 206-235), with the ordinal list produced by the
external vector search as parameter.  An `Except.error` models an
exception reaching the `except` handler of line 237. -/
def retrieve_db_phase (db : Db) (property_id : Int) (faiss_indices : List Int) :
    Except String (List SqlVal) :=
  match min_rowid db property_id with
  | none => Except.ok []
  | some base =>
    let ids := db_chunk_ids base faiss_indices
    match build_results_dict ((fetched_rows db ids).map select_chunk_text_row) with
    | Except.error e => Except.error e
    | Except.ok dict => Except.ok (ordered_chunks dict ids)

/-- Errors that escape `RAGIndex.retrieve` to its caller. -/
inductive RagError where
  | fileNotFound : RagError
deriving DecidableEq

/-- `RAGIndex.retrieve` (src/lise/rag.py lines 192-242).
`index_loaded` models `self.index is not None`; `index_file_exists`
models `os.path.exists(self.index_path)`.  `_load_index` (lines
185-190) runs before the `try` block, so its `FileNotFoundError`
propagates to the caller; every exception inside the `try` block is
swallowed by the handler of line 237, which returns `[]`. -/
def retrieve (index_loaded index_file_exists : Bool) (db : Db) (property_id : Int)
    (faiss_indices : List Int) : Except RagError (List SqlVal) :=
  if index_loaded = false ∧ index_file_exists = false then
    Except.error RagError.fileNotFound
  else
    match retrieve_db_phase db property_id faiss_indices with
    | Except.ok r => Except.ok r
    | Except.error _ => Except.ok []

/-! ### `RAGIndex.build_and_save_index` (src/lise/rag.py lines 124-183) -/

/-- The `DELETE FROM chunks WHERE datasource_id IN (...)` of
src/lise/rag.py lines 138-142. -/
def delete_property_chunks (db : Db) (property_id : Int) : Db :=
  Db.mk db.datasources
    (db.chunks.filter (fun r =>
      !((property_datasource_ids db property_id).contains r.datasource_id)))

/-- Chunking loop of src/lise/rag.py lines 146-151: splits every
document with `recursive_character_splitter` at the configured
defaults and tags each chunk with its datasource id.  `none` models
the splitter recursion not finishing (a `RecursionError`). -/
def split_documents (fuel : Nat) : List (Int × Chars) → Option (List (Int × Chars))
  | [] => some []
  | d :: rest =>
    match rcsFuel fuel CHUNK_SIZE CHUNK_OVERLAP d.2 defaultSeps with
    | none => none
    | some cs =>
      match split_documents fuel rest with
      | none => none
      | some tl => some (cs.map (fun c => (d.1, c)) ++ tl)

/-- Largest rowid present in the chunks table (0 when empty); sqlite
assigns `max + 1, max + 2, ...` to freshly inserted rows. -/
def max_rowid (db : Db) : Int := (db.chunks.map (fun r => r.rowid)).foldl max 0

/-- The `INSERT INTO chunks ...` executemany of src/lise/rag.py lines
162-165: rows appended with consecutive increasing rowids. -/
def insert_chunks (db : Db) (rows : List (Int × Chars)) : Db :=
  Db.mk db.datasources
    (db.chunks ++ rows.enum.map (fun p => ChunkRow.mk (max_rowid db + 1 + (p.1 : Int)) p.2.1 p.2.2))

/-- State touched by a build: the database and the per-property index
files on disk (`rag_indexes/{property_id}.index`), the file content
represented by the chunk list whose embeddings it indexes. -/
structure RagState where
  db : Db
  index_files : List (Int × List Chars)
deriving DecidableEq

/-- `faiss.write_index` to the per-property path (src/lise/rag.py
line 176): replaces the file for this property. -/
def set_index_file (files : List (Int × List Chars)) (property_id : Int)
    (content : List Chars) : List (Int × List Chars) :=
  files.filter (fun f => !(f.1 == property_id)) ++ [(property_id, content)]

/-- `RAGIndex.build_and_save_index` (src/lise/rag.py lines 124-183).
The `with conn` block commits on every normal exit -- including the
early `return` of line 155 taken when no chunks were produced -- and
rolls back when an exception escapes the block; the outer `except`
(line 179) swallows the exception.  `embed_ok` and `persist_ok` model
whether the external embedding call (line 170) and `faiss.write_index`
(line 176) succeed. -/
def build_and_save_index (st : RagState) (property_id : Int) (documents : List (Int × Chars))
    (fuel : Nat) (embed_ok persist_ok : Bool) : RagState :=
  let db_deleted := delete_property_chunks st.db property_id
  match split_documents fuel documents with
  | none => st
  | some rows =>
    if rows = [] then RagState.mk db_deleted st.index_files
    else if embed_ok = false then st
    else if persist_ok = false then st
    else
      RagState.mk (insert_chunks db_deleted rows)
        (set_index_file st.index_files property_id (rows.map (fun r => r.2)))

/-! ### In-memory backend (src/api.py lines 37-62) -/

/-- Message of the `ValueError` of src/api.py line 41. -/
def valueErrorMsg : String := "Cannot initialize InMemoryRAG with empty chunks."

/-- `InMemoryRAG.__init__` (src/api.py lines 39-53): rejects an empty
chunk list before any index is built; otherwise the supplied chunks
become the corpus of the transient index. -/
def InMemoryRAG_init (chunks : List Chars) : Except String (List Chars) :=
  if chunks = [] then Except.error valueErrorMsg else Except.ok chunks

/-- Message of a Python `IndexError` on list indexing. -/
def listIndexErrorMsg : String := "list index out of range"

/-- Python list indexing `l[i]` with an `int` index: non-negative
indices count from the front, negative indices from the back, anything
else raises `IndexError`. -/
def py_list_get (l : List Chars) (i : Int) : Except String Chars :=
  if 0 ≤ i ∧ i < (l.length : Int) then
    match l[i.toNat]? with
    | some t => Except.ok t
    | none => Except.error listIndexErrorMsg
  else if 0 ≤ i + (l.length : Int) ∧ i < 0 then
    match l[(i + (l.length : Int)).toNat]? with
    | some t => Except.ok t
    | none => Except.error listIndexErrorMsg
  else Except.error listIndexErrorMsg

/-- The list comprehension of src/api.py line 62:
`[self.chunks[i] for i in I[0]]`. -/
def py_gets (chunks : List Chars) : List Int → Except String (List Chars)
  | [] => Except.ok []
  | i :: rest =>
    match py_list_get chunks i with
    | Except.error e => Except.error e
    | Except.ok t =>
      match py_gets chunks rest with
      | Except.error e => Except.error e
      | Except.ok tl => Except.ok (t :: tl)

/-- `InMemoryRAG.retrieve` (src/api.py lines 55-62), with the label
list produced by the faiss search as parameter. -/
def InMemoryRAG_retrieve (chunks : List Chars) (faiss_indices : List Int) :
    Except String (List Chars) :=
  py_gets chunks faiss_indices

/-- Label output of a faiss `IndexFlatL2` search over an index holding
`ranked.length` vectors, `ranked` being all stored ordinals in
ascending distance order: the first `top_k` of them, padded with `-1`
entries when the index holds fewer than `top_k` vectors.  This models
the external faiss library, which the source calls at src/api.py
line 60 and src/lise/rag.py line 199. -/
def faiss_search_labels (ranked : List Int) (top_k : Nat) : List Int :=
  ranked.take top_k ++ List.replicate (top_k - ranked.length) (-1)

/-! ### Payload-shape branching of the answer endpoint (src/api.py lines 104-147) -/

/-- JSON values, as produced by `response.json()` at src/api.py
line 111. -/
inductive Json where
  | null : Json
  | bool (b : Bool) : Json
  | num (n : Int) : Json
  | str (s : Chars) : Json
  | arr (xs : List Json) : Json
  | obj (fields : List (String × Json)) : Json

/-- Message of the Python `TypeError` raised by `key in item` when
`item` supports no membership test. -/
def typeErrorMsg : String := "argument is not iterable"

/-- Message of a Python `KeyError`. -/
def keyErrorMsg : String := "KeyError"

/-- Python `isinstance(x, dict) and key in x` for the guard of
src/api.py line 115; total, because `data[0]` is already known to be a
dict there. -/
def objHasKey (key : String) : Json → Bool
  | Json.obj fields => fields.any (fun kv => kv.1 == key)
  | _ => false

/-- Is this JSON value a string (`isinstance(c, str)`)? -/
def isJsonStr : Json → Bool
  | Json.str _ => true
  | _ => false

/-- The Python expression `chunk_text in item` of src/api.py line 117
for an arbitrary `item`: key membership on a dict, substring test on a
string, element membership on a list, `TypeError` otherwise. -/
def pyInChunkText : Json → Except String Bool
  | Json.obj fields => Except.ok (fields.any (fun kv => kv.1 == chunk_text_key))
  | Json.str s => Except.ok (containsSeq chunk_text_key.toList s)
  | Json.arr xs => Except.ok (xs.any (fun j =>
      match j with
      | Json.str s => s == chunk_text_key.toList
      | _ => false))
  | _ => Except.error typeErrorMsg

/-- The Python expression `item[chunk_text]` of src/api.py line 117:
key lookup on a dict, `TypeError` on anything else. -/
def pyGetItemChunkText : Json → Except String Json
  | Json.obj fields =>
    match fields.find? (fun kv => kv.1 == chunk_text_key) with
    | some kv => Except.ok kv.2
    | none => Except.error keyErrorMsg
  | _ => Except.error typeErrorMsg

/-- The comprehension of src/api.py line 117:
`[item[chunk_text] for item in data if chunk_text in item]`. -/
def comprehend_chunks : List Json → Except String (List Json)
  | [] => Except.ok []
  | item :: rest =>
    match pyInChunkText item with
    | Except.error e => Except.error e
    | Except.ok b =>
      if b then
        match pyGetItemChunkText item with
        | Except.error e => Except.error e
        | Except.ok v =>
          match comprehend_chunks rest with
          | Except.error e => Except.error e
          | Except.ok tl => Except.ok (v :: tl)
      else comprehend_chunks rest

/-- Shape branching of the answer endpoint over the fetched JSON value
(src/api.py lines 115-126).  The error value is the HTTP status code
the client observes.  The `HTTPException(status_code=400)` of line 125
is an `Exception`, so it is caught by the `except Exception` handler
of line 145, which replaces it with `HTTPException(status_code=500)`;
a `TypeError` inside the comprehension reaches the same handler.  The
first branch is taken when the payload is a non-empty JSON array whose
first element is an object with a `chunk_text` field; the second when
the payload is an array of strings (vacuously, the empty array). -/
def get_answer_chunks : Json → Except Nat (List Json)
  | Json.arr xs =>
    match xs with
    | x :: rest =>
      if objHasKey chunk_text_key x then
        match comprehend_chunks (x :: rest) with
        | Except.ok cs => Except.ok cs
        | Except.error _ => Except.error 500
      else if (x :: rest).all isJsonStr then Except.ok (x :: rest)
      else Except.error 500
    | [] => Except.ok []
  | _ => Except.error 500

/-- Chunk-text field of a JSON object, `none` on other values: the
extraction the spec describes for the array-of-objects export
format. -/
def chunk_text_field : Json → Option Json
  | Json.obj fields => (fields.find? (fun kv => kv.1 == chunk_text_key)).map (fun kv => kv.2)
  | _ => none

/-- Does processing this element inside the comprehension of
src/api.py line 117 raise an exception?  An object never raises (the
lookup is guarded by the membership test); a string or array raises
exactly when the membership test passes on it, because the subsequent
`item[chunk_text]` is a `TypeError` on those types; a number, boolean
or null raises already in the membership test. -/
def item_raises : Json → Bool
  | Json.obj _ => false
  | Json.str s => containsSeq chunk_text_key.toList s
  | Json.arr xs => xs.any (fun j =>
      match j with
      | Json.str s => s == chunk_text_key.toList
      | _ => false)
  | _ => true

/-! ### Concrete instances used by the theorems -/

/-- A separator-free text longer than a chunk size of 3. -/
def aaaaT : Chars := ['a', 'a', 'a', 'a']

/-- First document of the build scenario of the spec. -/
def skyStr : String := "The sky is blue."

/-- Second document of the build scenario of the spec. -/
def grassStr : String := "Grass is green."

/-- First document text as characters. -/
def skyT : Chars := skyStr.toList

/-- Second document text as characters. -/
def grassT : Chars := grassStr.toList

/-- Database after building tenant 1 with the two scenario documents:
one datasource (id 1) owned by property 1, and the two chunks at
rowids 1 and 2, so the faiss ordinals 0 and 1 correspond to rowids
1 and 2. -/
def scen_db : Db :=
  Db.mk [Datasource.mk 1 1] [ChunkRow.mk 1 1 skyT, ChunkRow.mk 2 1 grassT]

/-- Two-tenant database: tenant 1 owns datasource 10 with one chunk at
rowid 1; tenant 2 owns datasource 20 with chunks at rowids 2 and 3
(its `base_rowid` is therefore 2). -/
def leak_db : Db :=
  Db.mk [Datasource.mk 10 1, Datasource.mk 20 2]
    [ChunkRow.mk 1 10 ['B'], ChunkRow.mk 2 20 ['a'], ChunkRow.mk 3 20 ['b']]

/-- State of a tenant with one previously stored chunk row and a
previously persisted index file over that chunk. -/
def built_state : RagState :=
  RagState.mk (Db.mk [Datasource.mk 1 1] [ChunkRow.mk 1 1 ['o']]) [(1, [['o']])]

/-- One-element sample text list. -/
def aChunk : Chars := ['a']

/-- A payload element carrying a `chunk_text` field. -/
def goodItem : Json := Json.obj [(chunk_text_key, Json.str aChunk)]

/-- Some other field name. -/
def xKey : String := "x"

/-- A payload element without a `chunk_text` field. -/
def strayItem : Json := Json.obj [(xKey, Json.num 1)]

/-! ### Theorems -/

/-- Helper for claim C2: with the empty separator list, every splitter
step on the oversized separator-free text recurses on exactly the same
arguments, so no amount of fuel produces a result. -/
theorem rcs_stuck_nil : ∀ f, rcsFuel f 3 0 aaaaT [] = none
  | 0 => rfl
  | Nat.succ f => by
      have ih := rcs_stuck_nil f
      simp only [aaaaT] at ih
      simp only [rcsFuel, aaaaT, pickSep, goParts, List.tail_nil]
      simp [goParts, ih]

/-- Helper for claim C2: suffix `[""]` of the separator list. -/
theorem rcs_stuck_s4 : ∀ f, rcsFuel f 3 0 aaaaT [([] : Chars)] = none
  | 0 => rfl
  | Nat.succ f => by
      have ih := rcs_stuck_nil f
      simp only [aaaaT] at ih
      simp only [rcsFuel, aaaaT, pickSep, goParts, List.tail_cons]
      simp [goParts, ih]

/-- Helper for claim C2: suffix `[" ", ""]` of the separator list. -/
theorem rcs_stuck_s3 : ∀ f, rcsFuel f 3 0 aaaaT [[' '], []] = none
  | 0 => rfl
  | Nat.succ f => by
      have ih := rcs_stuck_s4 f
      simp only [aaaaT] at ih
      simp only [rcsFuel, aaaaT, pickSep, goParts, List.tail_cons]
      simp [goParts, ih, containsSeq, List.isPrefixOf]

/-- Helper for claim C2: suffix `[". ", " ", ""]` of the separator
list. -/
theorem rcs_stuck_s2 : ∀ f, rcsFuel f 3 0 aaaaT [['.', ' '], [' '], []] = none
  | 0 => rfl
  | Nat.succ f => by
      have ih := rcs_stuck_s3 f
      simp only [aaaaT] at ih
      simp only [rcsFuel, aaaaT, pickSep, goParts, List.tail_cons]
      simp [goParts, ih, containsSeq, List.isPrefixOf]

/-- Helper for claim C2: suffix `["\n", ". ", " ", ""]` of the
separator list. -/
theorem rcs_stuck_s1 : ∀ f, rcsFuel f 3 0 aaaaT [['\n'], ['.', ' '], [' '], []] = none
  | 0 => rfl
  | Nat.succ f => by
      have ih := rcs_stuck_s2 f
      simp only [aaaaT] at ih
      simp only [rcsFuel, aaaaT, pickSep, goParts, List.tail_cons]
      simp [goParts, ih, containsSeq, List.isPrefixOf]

/-- Helper for claim C2: the full default separator list. -/
theorem rcs_stuck_s0 : ∀ f, rcsFuel f 3 0 aaaaT defaultSeps = none
  | 0 => rfl
  | Nat.succ f => by
      have ih := rcs_stuck_s1 f
      simp only [aaaaT] at ih
      simp only [rcsFuel, aaaaT, defaultSeps, pickSep, goParts, List.tail_cons]
      simp [goParts, ih, containsSeq, List.isPrefixOf]

/-- Claim C2 (code_bug evaluation): `recursive_character_splitter`
does NOT terminate on every input.  On the text `"aaaa"` with
`chunk_size = 3` and `chunk_overlap = 0`, no amount of fuel yields a
result: the empty-separator fallback never performs a character-level
split (the source sets `splits = [text]` instead), so the oversized
separator-free part is recursed on unchanged forever once the
separator list is exhausted; in Python this is a `RecursionError`. -/
theorem c2_splitter_diverges_on_aaaa :
    ∀ fuel, recursive_character_splitter fuel aaaaT 3 0 = none :=
  fun fuel => rcs_stuck_s0 fuel

/-- Claim C4 (code_bug evaluation): for the non-empty text `" "`
(one space) with `chunk_size = 50` and `chunk_overlap = 0`, the
splitter terminates and returns the EMPTY chunk list: splitting on
`" "` yields two empty parts, both skipped, so no chunk is formed and
the input character is lost -- contradicting both the non-empty-result
and the full-coverage parts of the claim. -/
theorem c4_space_yields_no_chunks :
    recursive_character_splitter 5 [' '] 50 0 = some [] ∧ ([' '] : Chars) ≠ [] := by
  exact ⟨rfl, by decide⟩

/-- Claim C1 (code_bug evaluation): in the exact scenario of the spec,
each document becomes a single chunk equal to itself, yet `retrieve`
returns `[]` rather than the text of the chunk the vector search
ranked first.  With the search producing ordinal 1 (mapped to rowid
`base_rowid + 1 = 2`), the dict comprehension reads the `rowid` column
from rows that carry only `chunk_text` (the SELECT of line 226 does
not request `rowid`), so an `IndexError` is raised and the `except`
handler turns the whole call into `[]`. -/
theorem c1_retrieve_returns_empty_not_grass :
    recursive_character_splitter 5 skyT 50 0 = some [skyT] ∧
    recursive_character_splitter 5 grassT 50 0 = some [grassT] ∧
    retrieve true true scen_db 1 [1] = Except.ok [] ∧
    retrieve_db_phase scen_db 1 [1] = Except.error indexErrorMsg := by
  exact ⟨rfl, rfl, rfl, rfl⟩

/-- Claim C3 (code_bug evaluation): the abort path of
`build_and_save_index` is not all-or-nothing.  Starting from a tenant
with one stored chunk row and a persisted index file, a build with an
empty document list takes the early `return` of line 155; that exits
the `with conn` block normally, COMMITTING the `DELETE` of the old
chunk rows, while the old index file stays on disk -- the old index now
points at chunk rows that no longer exist. -/
theorem c3_abort_commits_chunk_deletion :
    build_and_save_index built_state 1 [] 5 true true =
      RagState.mk (Db.mk [Datasource.mk 1 1] []) [(1, [['o']])] ∧
    (built_state.db.chunks ≠ [] ∧ built_state.index_files = [(1, [['o']])]) := by
  exact ⟨rfl, by decide, rfl⟩

/-- Claim C5 (code_bug evaluation): with a corpus of one chunk and
`top_k = 3`, the faiss label array is `[0, -1, -1]` and
`InMemoryRAG.retrieve` returns THREE texts, the padding ordinals `-1`
resolved by Python negative indexing to the LAST chunk -- duplicated
entries standing in for missing ordinals, instead of the
`min(k, n) = 1` texts the claim states. -/
theorem c5_padding_ordinals_duplicate_last_chunk :
    faiss_search_labels [0] 3 = [0, -1, -1] ∧
    InMemoryRAG_retrieve [aChunk] (faiss_search_labels [0] 3) =
      Except.ok [aChunk, aChunk, aChunk] := by
  exact ⟨rfl, rfl⟩

/-- Claim C6 counterexample: the rows looked up during resolution are
NOT confined to the querying tenant.  In `leak_db`, tenant 2 has
`base_rowid = 2`; a padding ordinal `-1` (returned by faiss when the
index holds fewer than `top_k` vectors) is mapped to rowid 1, and the
row fetched for it belongs to datasource 10, which is owned by tenant
1, not tenant 2. -/
theorem c6_counterexample_foreign_row_fetched :
    min_rowid leak_db 2 = some 2 ∧
    fetched_rows leak_db (db_chunk_ids 2 [-1]) = [ChunkRow.mk 1 10 ['B']] ∧
    (property_datasource_ids leak_db 2).contains 10 = false ∧
    (property_datasource_ids leak_db 1).contains 10 = true := by
  exact ⟨rfl, rfl, rfl, rfl⟩

/-- Helper: the first row of any fetched result set makes the dict
comprehension of line 230 raise, because the `rowid` column is not in
the SELECT of line 226. -/
theorem build_results_dict_errors (r : ChunkRow) (rest : List (List (String × SqlVal))) :
    build_results_dict (select_chunk_text_row r :: rest) = Except.error indexErrorMsg := by
  have hk : (chunk_text_key == rowid_key) = false := by decide
  simp [build_results_dict, row_lookup, select_chunk_text_row, List.find?, hk]

/-- Helper: the database phase of `retrieve` can only produce the
empty list (when no row matches, or `MIN(rowid)` is NULL) or an
exception (as soon as one row is fetched). -/
theorem retrieve_db_phase_empty_or_error (db : Db) (property_id : Int)
    (faiss_indices : List Int) :
    retrieve_db_phase db property_id faiss_indices = Except.ok [] ∨
    retrieve_db_phase db property_id faiss_indices = Except.error indexErrorMsg := by
  unfold retrieve_db_phase
  cases hmin : min_rowid db property_id with
  | none => exact Or.inl rfl
  | some base =>
    cases hf : fetched_rows db (db_chunk_ids base faiss_indices) with
    | nil =>
      left
      simp [hf, build_results_dict, ordered_chunks, List.find?]
    | cons r rs =>
      right
      simp [hf, build_results_dict_errors]

/-- Claim C6 amended: `retrieve` never returns text belonging to a
different tenant -- indeed it never returns any text at all: every call
either raises the not-indexed error or returns the empty list, because
the dict comprehension of line 230 raises an `IndexError` whenever at
least one row is fetched, and the `except` handler returns `[]`. -/
theorem c6_retrieve_never_returns_any_text (index_loaded index_file_exists : Bool)
    (db : Db) (property_id : Int) (faiss_indices : List Int) :
    retrieve index_loaded index_file_exists db property_id faiss_indices =
      Except.error RagError.fileNotFound ∨
    retrieve index_loaded index_file_exists db property_id faiss_indices =
      Except.ok [] := by
  unfold retrieve
  by_cases h : index_loaded = false ∧ index_file_exists = false
  · simp [h]
  · simp only [if_neg h]
    rcases retrieve_db_phase_empty_or_error db property_id faiss_indices with he | he
    · right
      simp [he]
    · right
      simp [he]

/-- Claim C7: for a tenant whose index is not loaded in memory and has
no index file on disk, `retrieve` raises the not-indexed condition
(the `FileNotFoundError` of `_load_index`) and the error reaches the
caller unmodified: `_load_index` runs before the `try` block of
`retrieve`, so the handler that returns `[]` never sees it. -/
theorem c7_not_indexed_error_propagates (db : Db) (property_id : Int)
    (faiss_indices : List Int) :
    retrieve false false db property_id faiss_indices =
      Except.error RagError.fileNotFound := by
  rfl

/-- Claim C10: `InMemoryRAG.__init__` raises `ValueError` exactly on
the empty chunk list, and otherwise succeeds with the supplied chunks
as the corpus -- so an in-memory index over zero chunks can never
exist. -/
theorem c10_init_rejects_exactly_empty (chunks : List Chars) :
    (InMemoryRAG_init chunks = Except.error valueErrorMsg ↔ chunks = []) ∧
    (InMemoryRAG_init chunks = Except.ok chunks ↔ chunks ≠ []) := by
  unfold InMemoryRAG_init
  by_cases h : chunks = [] <;> simp [h]

/-- Helper for claim C8: element access into a `zipWith` when the
index is within both lists. -/
theorem zipWith_getElem_opt (g : Chars → Chars → Chars) :
    ∀ (l1 l2 : List Chars) (i : Nat), i < l1.length → i < l2.length →
      (List.zipWith g l1 l2)[i]? = some (g (l1[i]?.getD []) (l2[i]?.getD [])) := by
  intro l1
  induction l1 with
  | nil => intro l2 i h1 _; simp at h1
  | cons a as ih =>
    intro l2 i h1 h2
    cases l2 with
    | nil => simp at h2
    | cons b bs =>
      cases i with
      | zero => simp
      | succ j =>
        simp only [List.zipWith_cons_cons, List.getElem?_cons_succ]
        exact ih bs j (by simpa using h1) (by simpa using h2)

/-- Claim C8: the overlap phase of the splitter.  For a positive
overlap and at least two pre-overlap chunks, the result has the same
length, an unchanged first chunk, and every later chunk is the last
`chunk_overlap` characters of the previous pre-overlap chunk prepended
to the current pre-overlap chunk; with zero overlap or at most one
chunk the list is returned unchanged. -/
theorem c8_overlap_application (n : Nat) (chunks : List Chars)
    (hn : 0 < n) (hlen : 2 ≤ chunks.length) :
    (applyOverlap n chunks).length = chunks.length ∧
    (applyOverlap n chunks).head? = chunks.head? ∧
    (∀ i, i + 1 < chunks.length →
      (applyOverlap n chunks)[i + 1]? =
        some (lastN n (chunks[i]?.getD []) ++ (chunks[i + 1]?.getD []))) ∧
    (∀ cs : List Chars, applyOverlap 0 cs = cs) ∧
    (∀ (m : Nat) (c : Chars), applyOverlap m [c] = [c] ∧ applyOverlap m ([] : List Chars) = []) := by
  cases chunks with
  | nil => simp at hlen
  | cons c rest =>
    have hcond : 0 < n ∧ 1 < (c :: rest).length := by
      constructor
      · exact hn
      · simpa using hlen
    have hform : applyOverlap n (c :: rest) =
        c :: List.zipWith (fun prev cur => lastN n prev ++ cur) (c :: rest) rest := by
      unfold applyOverlap
      rw [if_pos hcond]
    refine ⟨?_, ?_, ?_, ?_, ?_⟩
    · rw [hform]
      simp only [List.length_cons, List.length_zipWith]
      omega
    · rw [hform]
      rfl
    · intro i hi
      have hi2 : i < rest.length := by simpa using hi
      rw [hform]
      rw [List.getElem?_cons_succ]
      rw [zipWith_getElem_opt (fun prev cur => lastN n prev ++ cur) (c :: rest) rest i
        (by simp; omega) hi2]
      rw [List.getElem?_cons_succ]
    · intro cs
      cases cs with
      | nil => rfl
      | cons d ds => simp [applyOverlap]
    · intro m d
      constructor
      · simp [applyOverlap]
      · simp [applyOverlap]

/-- Witness for claim C8 at overlap 2 over the pre-overlap chunks
`["abc", "d"]`: the second returned chunk is `"bcd"`. -/
theorem c8_overlap_application_witness :
    (applyOverlap 2 [['a', 'b', 'c'], ['d']])[0 + 1]? = some ['b', 'c', 'd'] :=
  (c8_overlap_application 2 [['a', 'b', 'c'], ['d']] (by decide) (by decide)).2.2.1 0
    (by decide)

/-- Claim C9 counterexample: a payload that is neither an array of
strings nor an array of objects all carrying `chunk_text` -- its second
element is an object without the field -- is ACCEPTED by the endpoint
(the element without the field is silently skipped), instead of being
rejected; and a non-array payload is rejected with HTTP 500, not 400,
because the `HTTPException(400)` of line 125 is caught by the
`except Exception` handler of line 145 and replaced with a 500. -/
theorem c9_counterexample_mixed_array_accepted :
    get_answer_chunks (Json.arr [goodItem, strayItem]) = Except.ok [Json.str aChunk] ∧
    get_answer_chunks (Json.num 5) = Except.error 500 := by
  exact ⟨rfl, rfl⟩

/-- Helper for claim C9: when no element of the array makes the
comprehension of line 117 raise, it extracts exactly the `chunk_text`
values of the object elements carrying the field, in array order,
silently skipping every other element. -/
theorem comprehend_chunks_clean :
    ∀ (items : List Json), (∀ it ∈ items, item_raises it = false) →
      comprehend_chunks items = Except.ok (items.filterMap chunk_text_field) := by
  intro items
  induction items with
  | nil => intro _; rfl
  | cons it rest ih =>
    intro h
    have hit := h it (by simp)
    have hrest : ∀ x ∈ rest, item_raises x = false := fun x hx => h x (by simp [hx])
    have htail := ih hrest
    cases it with
    | null => simp [item_raises] at hit
    | bool b => simp [item_raises] at hit
    | num m => simp [item_raises] at hit
    | str s =>
      simp only [item_raises, String.toList] at hit
      simp [comprehend_chunks, pyInChunkText, hit, htail, chunk_text_field]
    | arr xs =>
      simp only [item_raises, String.toList] at hit
      simp [comprehend_chunks, pyInChunkText, hit, htail, chunk_text_field]
    | obj fields =>
      by_cases hany : fields.any (fun kv => kv.1 == chunk_text_key) = true
      · have hfind : (fields.find? (fun kv => kv.1 == chunk_text_key)).isSome :=
          List.find?_isSome.mpr (List.any_eq_true.mp hany)
        obtain ⟨kv, hkv⟩ := Option.isSome_iff_exists.mp hfind
        simp only [comprehend_chunks, pyInChunkText, hany, if_pos, pyGetItemChunkText, hkv,
          htail, List.filterMap_cons, chunk_text_field]
        simp
      · rw [Bool.not_eq_true] at hany
        have hnone : fields.find? (fun kv => kv.1 == chunk_text_key) = none := by
          rw [List.find?_eq_none]
          intro a ha
          exact (List.any_eq_false.mp hany) a ha
        simp [comprehend_chunks, pyInChunkText, hany, htail, chunk_text_field, hnone]

/-- Helper for claim C9: as soon as some element of the array makes
the comprehension of line 117 raise (a number, boolean or null in the
membership test, or a string or array on which the membership test
passes so that the lookup is a `TypeError`), the whole comprehension
raises `TypeError`: elements before the first offender are processed
or skipped without error, and the offender is reached. -/
theorem comprehend_chunks_raises :
    ∀ (items : List Json), (∃ it ∈ items, item_raises it = true) →
      comprehend_chunks items = Except.error typeErrorMsg := by
  intro items
  induction items with
  | nil => intro h; obtain ⟨w, hw, _⟩ := h; simp at hw
  | cons it rest ih =>
    intro h
    by_cases hit : item_raises it = true
    · cases it with
      | obj fields => simp [item_raises] at hit
      | str s =>
        simp only [item_raises, String.toList] at hit
        simp [comprehend_chunks, pyInChunkText, hit, pyGetItemChunkText]
      | arr xs =>
        simp only [item_raises, String.toList] at hit
        simp [comprehend_chunks, pyInChunkText, hit, pyGetItemChunkText]
      | num m => rfl
      | bool b => rfl
      | null => rfl
    · obtain ⟨w, hw, hwr⟩ := h
      have hwrest : w ∈ rest := by
        rcases List.mem_cons.mp hw with h1 | h1
        · exact absurd (h1 ▸ hwr) hit
        · exact h1
      have htail := ih ⟨w, hwrest, hwr⟩
      rw [Bool.not_eq_true] at hit
      cases it with
      | num m => simp [item_raises] at hit
      | bool b => simp [item_raises] at hit
      | null => simp [item_raises] at hit
      | str s =>
        simp only [item_raises, String.toList] at hit
        simp [comprehend_chunks, pyInChunkText, hit, htail]
      | arr xs =>
        simp only [item_raises, String.toList] at hit
        simp [comprehend_chunks, pyInChunkText, hit, htail]
      | obj fields =>
        by_cases hany : fields.any (fun kv => kv.1 == chunk_text_key) = true
        · have hfind : (fields.find? (fun kv => kv.1 == chunk_text_key)).isSome :=
            List.find?_isSome.mpr (List.any_eq_true.mp hany)
          obtain ⟨kv, hkv⟩ := Option.isSome_iff_exists.mp hfind
          simp [comprehend_chunks, pyInChunkText, hany, pyGetItemChunkText, hkv, htail]
        · rw [Bool.not_eq_true] at hany
          simp [comprehend_chunks, pyInChunkText, hany, htail]

/-- Claim C9 amended: complete characterization of the endpoint over
every fetched payload.  (1) The empty array is accepted with an empty
chunk list.  (2) An array of strings is accepted as-is.  (3) A
non-empty array whose first element is an object carrying `chunk_text`
is accepted when no element makes the comprehension raise -- objects
carrying `chunk_text` contribute their values in array order, and
objects without the field, as well as strings and arrays on which the
membership test fails, are silently skipped (so mixed arrays can be
accepted, contrary to the original claim).  (4) The same first-element
shape with any element that makes the comprehension raise (a number,
boolean or null, or a string or array containing `chunk_text`) fails
with HTTP 500.  (5) An array passing neither the first-element test
nor the all-strings test is rejected with HTTP 500, not the claimed
400, the internal `HTTPException(400)` being swallowed by the generic
handler and re-raised as 500.  (6) A non-array payload is likewise
rejected with HTTP 500.  These six cases cover every payload. -/
theorem c9_amended_shape_characterization (data x : Json) (rest : List Json) :
    (get_answer_chunks (Json.arr []) = Except.ok []) ∧
    ((x :: rest).all isJsonStr = true →
      get_answer_chunks (Json.arr (x :: rest)) = Except.ok (x :: rest)) ∧
    (objHasKey chunk_text_key x = true → (∀ it ∈ x :: rest, item_raises it = false) →
      get_answer_chunks (Json.arr (x :: rest)) =
        Except.ok ((x :: rest).filterMap chunk_text_field)) ∧
    (objHasKey chunk_text_key x = true → (∃ it ∈ x :: rest, item_raises it = true) →
      get_answer_chunks (Json.arr (x :: rest)) = Except.error 500) ∧
    (objHasKey chunk_text_key x = false → (x :: rest).all isJsonStr = false →
      get_answer_chunks (Json.arr (x :: rest)) = Except.error 500) ∧
    ((∀ xs : List Json, data ≠ Json.arr xs) → get_answer_chunks data = Except.error 500) := by
  refine ⟨rfl, ?_, ?_, ?_, ?_, ?_⟩
  · intro hall
    have hx : isJsonStr x = true := (List.all_eq_true.mp hall) x (by simp)
    cases x with
    | str s => simp [get_answer_chunks, objHasKey, hall]
    | null => simp [isJsonStr] at hx
    | bool b => simp [isJsonStr] at hx
    | num m => simp [isJsonStr] at hx
    | arr xs => simp [isJsonStr] at hx
    | obj fields => simp [isJsonStr] at hx
  · intro hfirst hclean
    simp only [get_answer_chunks, hfirst, if_pos]
    rw [comprehend_chunks_clean (x :: rest) hclean]
  · intro hfirst hdirty
    simp only [get_answer_chunks, hfirst, if_pos]
    rw [comprehend_chunks_raises (x :: rest) hdirty]
  · intro hfirst hstr
    simp [get_answer_chunks, hfirst, hstr]
  · intro hnon
    cases data with
    | arr xs => exact absurd rfl (hnon xs)
    | null => rfl
    | bool b => rfl
    | num m => rfl
    | str s => rfl
    | obj fields => rfl

/-- Witness for claim C9 exercising all six cases: the empty array, a
singleton string array, the mixed accepted array
`[{chunk_text: "a"}, {x: 1}]`, the raising array
`[{chunk_text: "a"}, 5]`, the invalid array `["a", 5]`, and the
non-array payload `5`. -/
theorem c9_amended_shape_characterization_witness :
    get_answer_chunks (Json.arr []) = Except.ok [] ∧
    get_answer_chunks (Json.arr [Json.str aChunk]) = Except.ok [Json.str aChunk] ∧
    get_answer_chunks (Json.arr [goodItem, strayItem]) = Except.ok [Json.str aChunk] ∧
    get_answer_chunks (Json.arr [goodItem, Json.num 5]) = Except.error 500 ∧
    get_answer_chunks (Json.arr [Json.str aChunk, Json.num 5]) = Except.error 500 ∧
    get_answer_chunks (Json.num 5) = Except.error 500 := by
  refine ⟨?_, ?_, ?_, ?_, ?_, ?_⟩
  · exact (c9_amended_shape_characterization (Json.num 5) goodItem []).1
  · exact (c9_amended_shape_characterization (Json.num 5) (Json.str aChunk) []).2.1 rfl
  · exact (c9_amended_shape_characterization (Json.num 5) goodItem [strayItem]).2.2.1 rfl
      (by
        intro it hit
        rcases List.mem_cons.mp hit with h1 | h1
        · rw [h1]; rfl
        · rw [List.mem_singleton] at h1
          rw [h1]; rfl)
  · exact (c9_amended_shape_characterization (Json.num 5) goodItem [Json.num 5]).2.2.2.1 rfl
      ⟨Json.num 5, List.mem_cons_of_mem _ (List.mem_cons_self _ _), rfl⟩
  · exact
      (c9_amended_shape_characterization (Json.num 5) (Json.str aChunk) [Json.num 5]).2.2.2.2.1
      rfl rfl
  · exact (c9_amended_shape_characterization (Json.num 5) goodItem []).2.2.2.2.2
      (fun xs h => Json.noConfusion h)

end Lise
